import Mathlib

/-!
Shallow embedding of the FarmRide Flask application (`app.py`): data model
for users, drivers and rides, and the request handlers the specification's
claims are about. Machine-facing values (ids, dates, times, timestamps) are
modelled as `Nat`; nullable columns as `Option`; fallible handlers return
`Except (Nat × String)` carrying the HTTP status and the error message of
the corresponding `jsonify({'error': ...}), status` response.
-/

namespace FarmRide

/-- `users` table row (`class User`): farmers and admins. -/
structure User where
  user_id : Nat
  username : String
  phone_no : String
  password_hash : String
  full_name : String
  village : String
  is_admin : Bool
  created_at : Nat
deriving Repr, DecidableEq

/-- `drivers` table row (`class Driver`): a transport provider with one vehicle. -/
structure Driver where
  driver_id : Nat
  driver_name : String
  phone_no : String
  vehicle_name : String
  vehicle_type : String
  vehicle_id : String
  vehicle_photo : String
  driver_photo : String
  is_available : Bool
  created_at : Nat
deriving Repr, DecidableEq

/-- `rides` table row (`class Ride`): `user_id` is nullable (null = unbooked). -/
structure Ride where
  ride_id : Nat
  driver_id : Nat
  user_id : Option Nat
  driver_name : String
  vehicle_type : String
  vehicle_id : String
  date : Nat
  time : Nat
  start_location : String
  destination : String
  ride_status : String
  cargo_type : Option String
  notes : Option String
  created_at : Nat
deriving Repr, DecidableEq

/-- The persistent store: the three tables of the SQLite database. -/
structure Store where
  users : List User
  drivers : List Driver
  rides : List Ride
deriving Repr, DecidableEq

/-- Modelled from the spec: the external Credential Store
(`werkzeug.security.generate_password_hash`) derives a one-way hash such
that `check_password_hash` verifies exactly the original plaintext; it is
modelled as an injective encoding of the plaintext. -/
def generate_password_hash (plaintext : String) : String :=
  "pbkdf2$" ++ plaintext

/-- `User.check_password`: recompute the hash and compare
(`check_password_hash` of the external Credential Store). -/
def check_password (u : User) (plaintext : String) : Bool :=
  u.password_hash == generate_password_hash plaintext

/-- Autoincrement primary key for `users`. -/
def nextUserId (st : Store) : Nat :=
  st.users.foldl (fun m u => max m (u.user_id + 1)) 1

/-- Autoincrement primary key for `rides`. -/
def nextRideId (st : Store) : Nat :=
  st.rides.foldl (fun m r => max m (r.ride_id + 1)) 1

/-- JSON body of `POST /api/register`; absent keys are `none`. -/
structure RegisterRequest where
  username : Option String
  phone_no : Option String
  password : Option String
  full_name : Option String
  village : Option String
  is_admin : Option Bool
deriving Repr, DecidableEq

/-- The `register` handler's required-field loop: first missing field among
`username, phone_no, password, full_name`, in source order. -/
def registerMissingField (req : RegisterRequest) : Option String :=
  if req.username.isNone then some "username"
  else if req.phone_no.isNone then some "phone_no"
  else if req.password.isNone then some "password"
  else if req.full_name.isNone then some "full_name"
  else none

/-- `register` (`POST /api/register`, no authentication): 400 on a missing
required field, 409 on a duplicate username or phone number, otherwise the
new user is inserted (HTTP 201 in the source). -/
def register (st : Store) (now : Nat) (req : RegisterRequest) :
    Except (Nat × String) (Store × User) :=
  match registerMissingField req with
  | some f => .error (400, "Missing required field: " ++ f)
  | none =>
    let uname := req.username.getD ""
    let phone := req.phone_no.getD ""
    if (st.users.find? (fun u => u.username == uname)).isSome then
      .error (409, "Username already exists")
    else if (st.users.find? (fun u => u.phone_no == phone)).isSome then
      .error (409, "Phone number already registered")
    else
      let user : User :=
        { user_id := nextUserId st
          username := uname
          phone_no := phone
          password_hash := generate_password_hash (req.password.getD "")
          full_name := req.full_name.getD ""
          village := req.village.getD ""
          is_admin := req.is_admin.getD false
          created_at := now }
      .ok ({ st with users := st.users ++ [user] }, user)

/-- The users table after a `register` call: unchanged when the handler
returned an error (the source rolls back the session). -/
def usersAfterRegister (st : Store) (now : Nat) (req : RegisterRequest) : List User :=
  match register st now req with
  | .ok (st', _) => st'.users
  | .error _ => st.users

/-- JSON body of `POST /api/login`. -/
structure LoginRequest where
  username : Option String
  password : Option String
deriving Repr, DecidableEq

/-- Claims of the JWT issued by `login`. -/
structure TokenPayload where
  user_id : Nat
  username : String
  is_admin : Bool
  exp : Nat
deriving Repr, DecidableEq

/-- `login` (`POST /api/login`): 400 on a missing field; a failed user
lookup and a failed password check both produce the same
`(401, "Invalid username or password")` response
(`if not user or not user.check_password(...)` in the source). -/
def login (st : Store) (now : Nat) (req : LoginRequest) :
    Except (Nat × String) (TokenPayload × User) :=
  match req.username, req.password with
  | some uname, some pw =>
    match st.users.find? (fun u => u.username == uname) with
    | none => .error (401, "Invalid username or password")
    | some user =>
      if check_password user pw then
        .ok ({ user_id := user.user_id, username := user.username,
               is_admin := user.is_admin,
               exp := now + 7 * 24 * 60 * 60 }, user)
      else .error (401, "Invalid username or password")
  | _, _ => .error (400, "Username and password required")

/-- JSON body of `PUT /api/drivers/{id}`; absent keys are `none`. -/
structure DriverUpdate where
  driver_name : Option String
  phone_no : Option String
  vehicle_name : Option String
  vehicle_type : Option String
  vehicle_photo : Option String
  driver_photo : Option String
  is_available : Option Bool
deriving Repr, DecidableEq

/-- The field-by-field `if 'x' in data` block of `update_driver`: only these
seven columns are ever assigned. -/
def applyDriverUpdate (p : DriverUpdate) (d : Driver) : Driver :=
  let d := match p.driver_name with | some v => { d with driver_name := v } | none => d
  let d := match p.phone_no with | some v => { d with phone_no := v } | none => d
  let d := match p.vehicle_name with | some v => { d with vehicle_name := v } | none => d
  let d := match p.vehicle_type with | some v => { d with vehicle_type := v } | none => d
  let d := match p.vehicle_photo with | some v => { d with vehicle_photo := v } | none => d
  let d := match p.driver_photo with | some v => { d with driver_photo := v } | none => d
  let d := match p.is_available with | some v => { d with is_available := v } | none => d
  d

/-- `update_driver` (`PUT /api/drivers/{id}`, admin only): 404 when the id
does not resolve, otherwise a partial in-place update of the driver row. -/
def update_driver (st : Store) (driverId : Nat) (p : DriverUpdate) :
    Except (Nat × String) (Store × Driver) :=
  match st.drivers.find? (fun d => d.driver_id == driverId) with
  | none => .error (404, "Driver not found")
  | some d =>
    let d' := applyDriverUpdate p d
    .ok ({ st with
           drivers := st.drivers.map (fun x => if x.driver_id == driverId then d' else x) },
         d')

/-- `delete_driver` (`DELETE /api/drivers/{id}`, admin only): 404 when the id
does not resolve; otherwise the driver row is deleted and, through the
`cascade='all, delete-orphan'` relationship `Driver.rides`, every ride owned
by that driver is deleted with it. -/
def delete_driver (st : Store) (driverId : Nat) : Except (Nat × String) Store :=
  match st.drivers.find? (fun d => d.driver_id == driverId) with
  | none => .error (404, "Driver not found")
  | some _ =>
    .ok { users := st.users
          drivers := st.drivers.filter (fun d => !(d.driver_id == driverId))
          rides := st.rides.filter (fun r => !(r.driver_id == driverId)) }

/-- JSON body of `POST /api/rides`; absent keys are `none`. `date` and
`time` stand for the already-parsed `datetime.fromisoformat` values. -/
structure CreateRideRequest where
  driver_id : Option Nat
  date : Option Nat
  time : Option Nat
  start_location : Option String
  destination : Option String
  ride_status : Option String
  cargo_type : Option String
  notes : Option String
deriving Repr, DecidableEq

/-- The `create_ride` required-field loop: first missing field among
`driver_id, date, time, start_location, destination`, in source order. -/
def createRideMissingField (req : CreateRideRequest) : Option String :=
  if req.driver_id.isNone then some "driver_id"
  else if req.date.isNone then some "date"
  else if req.time.isNone then some "time"
  else if req.start_location.isNone then some "start_location"
  else if req.destination.isNone then some "destination"
  else none

/-- `create_ride` (`POST /api/rides`, admin only): 400 on a missing required
field, 404 when `driver_id` does not resolve; otherwise a new ride is
inserted with the driver's name/vehicle fields denormalized into it,
`ride_status` defaulting to `'available'` and a null `user_id`. -/
def create_ride (st : Store) (now : Nat) (req : CreateRideRequest) :
    Except (Nat × String) (Store × Ride) :=
  match createRideMissingField req with
  | some f => .error (400, "Missing required field: " ++ f)
  | none =>
    match st.drivers.find? (fun d => d.driver_id == req.driver_id.getD 0) with
    | none => .error (404, "Driver not found")
    | some driver =>
      let ride : Ride :=
        { ride_id := nextRideId st
          driver_id := req.driver_id.getD 0
          user_id := none
          driver_name := driver.driver_name
          vehicle_type := driver.vehicle_type
          vehicle_id := driver.vehicle_id
          date := req.date.getD 0
          time := req.time.getD 0
          start_location := req.start_location.getD ""
          destination := req.destination.getD ""
          ride_status := req.ride_status.getD "available"
          cargo_type := req.cargo_type
          notes := req.notes
          created_at := now }
      .ok ({ st with rides := st.rides ++ [ride] }, ride)

/-- JSON body of `PUT /api/rides/{id}`; absent keys are `none`. -/
structure RideUpdate where
  date : Option Nat
  time : Option Nat
  start_location : Option String
  destination : Option String
  ride_status : Option String
  cargo_type : Option String
  notes : Option String
deriving Repr, DecidableEq

/-- The field-by-field `if 'x' in data` block of `update_ride`. When the
patch sets `ride_status` to `'booked'`, the handler additionally stamps the
acting user into `user_id` — with no check of the previous status. -/
def applyRideUpdate (currentUserId : Nat) (p : RideUpdate) (r : Ride) : Ride :=
  let r := match p.date with | some v => { r with date := v } | none => r
  let r := match p.time with | some v => { r with time := v } | none => r
  let r := match p.start_location with | some v => { r with start_location := v } | none => r
  let r := match p.destination with | some v => { r with destination := v } | none => r
  let r := match p.ride_status with
    | some v =>
      let r := { r with ride_status := v }
      if v == "booked" then { r with user_id := some currentUserId } else r
    | none => r
  let r := match p.cargo_type with | some v => { r with cargo_type := some v } | none => r
  let r := match p.notes with | some v => { r with notes := some v } | none => r
  r

/-- `update_ride` (`PUT /api/rides/{id}`, any authenticated user): 404 when
the id does not resolve, otherwise a partial in-place update of the ride. -/
def update_ride (st : Store) (rideId currentUserId : Nat) (p : RideUpdate) :
    Except (Nat × String) (Store × Ride) :=
  match st.rides.find? (fun r => r.ride_id == rideId) with
  | none => .error (404, "Ride not found")
  | some r =>
    let r' := applyRideUpdate currentUserId p r
    .ok ({ st with
           rides := st.rides.map (fun x => if x.ride_id == rideId then r' else x) },
         r')

/-- `book_ride` (`POST /api/rides/{id}/book`, any authenticated user): 404
when the id does not resolve, 400 when the ride's status is not
`'available'`; otherwise one update sets the status to `'booked'` and the
booking user to the caller. -/
def book_ride (st : Store) (rideId currentUserId : Nat) :
    Except (Nat × String) (Store × Ride) :=
  match st.rides.find? (fun r => r.ride_id == rideId) with
  | none => .error (404, "Ride not found")
  | some r =>
    if r.ride_status != "available" then
      .error (400, "Ride is not available for booking")
    else
      let r' := { r with ride_status := "booked", user_id := some currentUserId }
      .ok ({ st with
             rides := st.rides.map (fun x => if x.ride_id == rideId then r' else x) },
           r')

/-- Sort order of `GET /api/rides`: `order_by(Ride.date.desc(), Ride.time.desc())`,
that is date descending, ties broken by time descending. -/
def rideGe (a b : Ride) : Prop :=
  b.date < a.date ∨ (b.date = a.date ∧ b.time ≤ a.time)

instance : DecidableRel rideGe := fun a b => by
  unfold rideGe; infer_instance

instance : IsTotal Ride rideGe :=
  ⟨fun a b => by
    rcases Nat.lt_trichotomy a.date b.date with h | h | h
    · exact Or.inr (Or.inl h)
    · rcases Nat.le_total b.time a.time with ht | ht
      · exact Or.inl (Or.inr ⟨h.symm, ht⟩)
      · exact Or.inr (Or.inr ⟨h, ht⟩)
    · exact Or.inl (Or.inl h)⟩

instance : IsTrans Ride rideGe :=
  ⟨fun a b c hab hbc => by
    rcases hab with h1 | ⟨e1, t1⟩
    · rcases hbc with h2 | ⟨e2, t2⟩
      · exact Or.inl (h2.trans h1)
      · exact Or.inl (e2 ▸ h1)
    · rcases hbc with h2 | ⟨e2, t2⟩
      · exact Or.inl (e1 ▸ h2)
      · exact Or.inr ⟨e2.trans e1, t2.trans t1⟩⟩

/-- `get_rides` (`GET /api/rides`, no authentication): apply each supplied
filter in source order, then sort by date descending / time descending. -/
def get_rides (st : Store) (status vehicleType : Option String) (dateQ : Option Nat) :
    List Ride :=
  let q := st.rides
  let q := match status with | some s => q.filter (fun r => r.ride_status == s) | none => q
  let q := match vehicleType with | some v => q.filter (fun r => r.vehicle_type == v) | none => q
  let q := match dateQ with | some d => q.filter (fun r => r.date == d) | none => q
  List.insertionSort rideGe q

/-- Stated from the spec's words, for comparison with `get_rides`: a ride
matches when it satisfies the conjunction (AND) of all supplied filters. -/
def matchesRideFilters (status vehicleType : Option String) (dateQ : Option Nat)
    (r : Ride) : Bool :=
  (match status with | some s => r.ride_status == s | none => true) &&
  (match vehicleType with | some v => r.vehicle_type == v | none => true) &&
  (match dateQ with | some d => r.date == d | none => true)

/-- Sort order of the admin dashboard's recent rides:
`order_by(Ride.created_at.desc())`. -/
def recentGe (a b : Ride) : Prop :=
  b.created_at ≤ a.created_at

instance : DecidableRel recentGe := fun a b => by
  unfold recentGe; infer_instance

instance : IsTotal Ride recentGe :=
  ⟨fun a b => (Nat.le_total b.created_at a.created_at).imp id id⟩

instance : IsTrans Ride recentGe :=
  ⟨fun _ _ _ hab hbc => Nat.le_trans hbc hab⟩

/-- The `stats` object of `GET /api/dashboard/admin`. -/
structure DashboardStats where
  total_drivers : Nat
  available_drivers : Nat
  total_rides : Nat
  available_rides : Nat
  booked_rides : Nat
  completed_rides : Nat
deriving Repr, DecidableEq

/-- The response of `GET /api/dashboard/admin`. -/
structure AdminDashboard where
  stats : DashboardStats
  recent_rides : List Ride
deriving Repr, DecidableEq

/-- `admin_dashboard` (`GET /api/dashboard/admin`, admin only): global
counts plus the ten most recently created rides; a pure read. -/
def admin_dashboard (st : Store) : AdminDashboard :=
  { stats :=
      { total_drivers := st.drivers.length
        available_drivers := (st.drivers.filter (fun d => d.is_available)).length
        total_rides := st.rides.length
        available_rides := (st.rides.filter (fun r => r.ride_status == "available")).length
        booked_rides := (st.rides.filter (fun r => r.ride_status == "booked")).length
        completed_rides := (st.rides.filter (fun r => r.ride_status == "completed")).length }
    recent_rides := (List.insertionSort recentGe st.rides).take 10 }

/-- The ride-mutating operations exposed by the API, for reachability
statements about the ride state machine. -/
inductive Op where
  | createRide (now : Nat) (req : CreateRideRequest)
  | updateRide (rideId userId : Nat) (patch : RideUpdate)
  | bookRide (rideId userId : Nat)
deriving Repr, DecidableEq

/-- One API call: the new store on success, the old store when the handler
answered with an error (the source rolls the session back). -/
def step (st : Store) (op : Op) : Store :=
  match op with
  | .createRide now req =>
    match create_ride st now req with
    | .ok (st', _) => st'
    | .error _ => st
  | .updateRide rid uid p =>
    match update_ride st rid uid p with
    | .ok (st', _) => st'
    | .error _ => st
  | .bookRide rid uid =>
    match book_ride st rid uid with
    | .ok (st', _) => st'
    | .error _ => st

/-- The store reached after a sequence of API calls. -/
def applyOps (init : Store) (ops : List Op) : Store :=
  ops.foldl step init

/-- The spec's closed status set for rides. -/
def rideStatusOk (s : String) : Bool :=
  s == "available" || s == "booked" || s == "completed"

/-- The spec's per-ride invariant: status in the closed set, and `user_id`
non-null only when the status is `'booked'` or `'completed'`. -/
def rideInvB (r : Ride) : Bool :=
  rideStatusOk r.ride_status &&
    (r.user_id.isNone || r.ride_status == "booked" || r.ride_status == "completed")

/-- The spec's invariant over the whole store. -/
def storeInvB (st : Store) : Bool :=
  st.rides.all rideInvB

/-- Restriction on ride operations under which the invariant is inductive:
creations supply a status from the closed set (or none, defaulting to
`'available'`), and a generic update's `ride_status`, when present, is
`'booked'` or `'completed'`. -/
def goodOp : Op → Bool
  | .createRide _ req => rideStatusOk (req.ride_status.getD "available")
  | .updateRide _ _ p =>
    p.ride_status.isNone || p.ride_status == some "booked" ||
      p.ride_status == some "completed"
  | .bookRide _ _ => true

/-! ## Helper lemmas -/

/-- `registerMissingField` is `none` exactly when all four required fields
are present. -/
theorem registerMissingField_eq_none {req : RegisterRequest} :
    registerMissingField req = none ↔
      req.username.isSome ∧ req.phone_no.isSome ∧ req.password.isSome ∧
        req.full_name.isSome := by
  unfold registerMissingField
  by_cases h1 : req.username.isNone <;> by_cases h2 : req.phone_no.isNone <;>
    by_cases h3 : req.password.isNone <;> by_cases h4 : req.full_name.isNone <;>
    simp_all [Option.isNone_iff_eq_none, Option.isSome_iff_ne_none]

/-- Inversion of a successful `register`: the only change is one appended
user, built from the request. -/
theorem register_ok_inv {st st1 : Store} {now : Nat} {req : RegisterRequest} {u : User}
    (h : register st now req = .ok (st1, u)) :
    registerMissingField req = none ∧
    st1.users = st.users ++ [u] ∧ st1.drivers = st.drivers ∧ st1.rides = st.rides ∧
    u.username = req.username.getD "" ∧ u.phone_no = req.phone_no.getD "" ∧
    u.password_hash = generate_password_hash (req.password.getD "") ∧
    u.is_admin = req.is_admin.getD false := by
  unfold register at h
  cases hmf : registerMissingField req with
  | some f => rw [hmf] at h; exact absurd h (by simp)
  | none =>
    rw [hmf] at h
    by_cases h1 : (st.users.find? (fun x => x.username == req.username.getD "")).isSome
    · rw [if_pos h1] at h; exact absurd h (by simp)
    · rw [if_neg h1] at h
      by_cases h2 : (st.users.find? (fun x => x.phone_no == req.phone_no.getD "")).isSome
      · rw [if_pos h2] at h; exact absurd h (by simp)
      · rw [if_neg h2] at h
        simp only [Except.ok.injEq, Prod.mk.injEq] at h
        obtain ⟨hst, hu⟩ := h
        subst hst; subst hu
        simp

/-! ## C5 -/

/-- C5: a login that fails because the username resolves to no user and a
login that fails because the password is wrong for an existing user produce
the same response: status 401 with the identical error body, so the
response does not reveal which part was wrong. -/
theorem login_indistinguishable
    (st1 st2 : Store) (n1 n2 : Nat) (r1 r2 : LoginRequest)
    (uname1 pw1 uname2 pw2 : String) (usr : User)
    (h1u : r1.username = some uname1) (h1p : r1.password = some pw1)
    (h1 : st1.users.find? (fun x => x.username == uname1) = none)
    (h2u : r2.username = some uname2) (h2p : r2.password = some pw2)
    (h2 : st2.users.find? (fun x => x.username == uname2) = some usr)
    (h2pw : check_password usr pw2 = false) :
    login st1 n1 r1 = Except.error (401, "Invalid username or password") ∧
    login st1 n1 r1 = login st2 n2 r2 := by
  unfold login
  rw [h1u, h1p, h2u, h2p]
  simp [h1, h2, h2pw]

/-- Concrete user for the login-indistinguishability witness. -/
def bobUser : User :=
  { user_id := 1, username := "bob", phone_no := "111",
    password_hash := generate_password_hash "pw",
    full_name := "Bob", village := "", is_admin := false, created_at := 0 }

/-- Concrete store holding only `bobUser`. -/
def bobStore : Store := { users := [bobUser], drivers := [], rides := [] }

/-- Witness for C5: an unknown-username login on an empty store and a
wrong-password login against `bobStore` return the identical 401 error. -/
theorem login_indistinguishable_witness :
    login { users := [], drivers := [], rides := [] } 0
        { username := some "bob", password := some "pw" } =
      Except.error (401, "Invalid username or password") ∧
    login { users := [], drivers := [], rides := [] } 0
        { username := some "bob", password := some "pw" } =
      login bobStore 0 { username := some "bob", password := some "x" } :=
  login_indistinguishable _ bobStore 0 0 _ _ "bob" "pw" "bob" "x" bobUser
    rfl rfl rfl rfl rfl (by decide) (by decide)

/-! ## C9 -/

/-- C9: the registration handler takes no token, and the created user's
admin flag equals the request's optional `is_admin` field, defaulting to
false when absent — so an unauthenticated request with `is_admin = true`
creates an admin user. -/
theorem register_admin_flag (st : Store) (now : Nat) (req : RegisterRequest)
    (hmf : registerMissingField req = none)
    (hu : st.users.find? (fun x => x.username == req.username.getD "") = none)
    (hp : st.users.find? (fun x => x.phone_no == req.phone_no.getD "") = none) :
    ∃ st' u, register st now req = .ok (st', u) ∧
      u.is_admin = req.is_admin.getD false := by
  unfold register
  rw [hmf]
  have hu' : (st.users.find? (fun x => x.username == req.username.getD "")).isSome = false := by
    rw [hu]; rfl
  have hp' : (st.users.find? (fun x => x.phone_no == req.phone_no.getD "")).isSome = false := by
    rw [hp]; rfl
  rw [if_neg (by simp [hu']), if_neg (by simp [hp'])]
  exact ⟨_, _, rfl, rfl⟩

/-- Witness for C9: on the empty store, an unauthenticated registration
with `is_admin = true` creates a user whose admin flag is true. -/
theorem register_admin_flag_witness :
    ∃ st' u,
      register { users := [], drivers := [], rides := [] } 0
          { username := some "eve", phone_no := some "222", password := some "pw",
            full_name := some "Eve", village := none, is_admin := some true } =
        .ok (st', u) ∧
      u.is_admin = true :=
  register_admin_flag { users := [], drivers := [], rides := [] } 0
    { username := some "eve", phone_no := some "222", password := some "pw",
      full_name := some "Eve", village := none, is_admin := some true }
    (by decide) rfl rfl

/-! ## C4 -/

/-- C4: after a successful registration, a second registration reusing the
first's username or phone number fails with 409 and adds no user; a second
registration with all required fields and a username and phone number
distinct from every stored user succeeds, and logging in with that username
and the same plaintext password then succeeds. -/
theorem register_login_contract
    (st st1 : Store) (n1 n2 n3 : Nat) (r1 r2 : RegisterRequest) (u1 : User)
    (hreg : register st n1 r1 = .ok (st1, u1))
    (hmf2 : registerMissingField r2 = none) :
    ((r2.username = r1.username ∨ r2.phone_no = r1.phone_no) →
      (∃ m, register st1 n2 r2 = .error (409, m)) ∧
        usersAfterRegister st1 n2 r2 = st1.users) ∧
    ((∀ u ∈ st1.users, some u.username ≠ r2.username) →
      (∀ u ∈ st1.users, some u.phone_no ≠ r2.phone_no) →
      ∃ st2 u2, register st1 n2 r2 = .ok (st2, u2) ∧
        ∃ tok, login st2 n3 { username := r2.username, password := r2.password } =
          .ok (tok, u2)) := by
  obtain ⟨hmf1, husers, -, -, hname, hphone, -, -⟩ := register_ok_inv hreg
  constructor
  · intro hdup
    have hmem : u1 ∈ st1.users := by rw [husers]; simp
    have hconf : ∃ m, register st1 n2 r2 = .error (409, m) := by
      unfold register
      rw [hmf2]
      by_cases hU : (st1.users.find? (fun x => x.username == r2.username.getD "")).isSome
      · rw [if_pos hU]; exact ⟨_, rfl⟩
      · have hPh : r2.phone_no = r1.phone_no := by
          rcases hdup with hdu | hdp
          · exact absurd (List.find?_isSome.mpr
              ⟨u1, hmem, by rw [hname, hdu]; simp⟩) hU
          · exact hdp
        rw [if_neg hU]
        have hP : (st1.users.find? (fun x => x.phone_no == r2.phone_no.getD "")).isSome :=
          List.find?_isSome.mpr ⟨u1, hmem, by rw [hphone, hPh]; simp⟩
        rw [if_pos hP]
        exact ⟨_, rfl⟩
    obtain ⟨m, hm⟩ := hconf
    refine ⟨⟨m, hm⟩, ?_⟩
    unfold usersAfterRegister
    rw [hm]
  · intro hfu hfp
    obtain ⟨hus, hph, hpw, -⟩ := registerMissingField_eq_none.mp hmf2
    obtain ⟨uname, huname⟩ := Option.isSome_iff_exists.mp hus
    obtain ⟨pw, hpwv⟩ := Option.isSome_iff_exists.mp hpw
    have hU : st1.users.find? (fun x => x.username == r2.username.getD "") = none := by
      rw [List.find?_eq_none]
      intro x hx hpx
      apply hfu x hx
      rw [huname] at hpx ⊢
      simp only [Option.getD_some] at hpx
      rw [eq_of_beq hpx]
    have hP : st1.users.find? (fun x => x.phone_no == r2.phone_no.getD "") = none := by
      rw [List.find?_eq_none]
      intro x hx hpx
      apply hfp x hx
      obtain ⟨ph, hphv⟩ := Option.isSome_iff_exists.mp hph
      rw [hphv] at hpx ⊢
      simp only [Option.getD_some] at hpx
      rw [eq_of_beq hpx]
    have hreg2 : register st1 n2 r2 =
        .ok ({ st1 with users := st1.users ++
                 [{ user_id := nextUserId st1
                    username := r2.username.getD ""
                    phone_no := r2.phone_no.getD ""
                    password_hash := generate_password_hash (r2.password.getD "")
                    full_name := r2.full_name.getD ""
                    village := r2.village.getD ""
                    is_admin := r2.is_admin.getD false
                    created_at := n2 }] },
               { user_id := nextUserId st1
                 username := r2.username.getD ""
                 phone_no := r2.phone_no.getD ""
                 password_hash := generate_password_hash (r2.password.getD "")
                 full_name := r2.full_name.getD ""
                 village := r2.village.getD ""
                 is_admin := r2.is_admin.getD false
                 created_at := n2 }) := by
      unfold register
      rw [hmf2, if_neg (by simp [hU]), if_neg (by simp [hP])]
    refine ⟨_, _, hreg2, ?_⟩
    have hU' : st1.users.find? (fun x => x.username == uname) = none := by
      rw [huname] at hU
      simpa using hU
    unfold login
    simp only [huname, hpwv]
    rw [List.find?_append, hU']
    simp [check_password, huname, hpwv]

/-- Concrete first registration request for the C4 witness. -/
def aliceReq : RegisterRequest :=
  { username := some "alice", phone_no := some "100", password := some "pw1",
    full_name := some "Alice", village := none, is_admin := none }

/-- The user row created by registering `aliceReq` on the empty store. -/
def aliceUser : User :=
  { user_id := 1, username := "alice", phone_no := "100",
    password_hash := generate_password_hash "pw1",
    full_name := "Alice", village := "", is_admin := false, created_at := 0 }

/-- The store after registering `aliceReq` on the empty store. -/
def aliceStore : Store :=
  { users := [aliceUser], drivers := [], rides := [] }

/-- Second request reusing Alice's username. -/
def aliceDupReq : RegisterRequest :=
  { username := some "alice", phone_no := some "101", password := some "pw2",
    full_name := some "Alice2", village := none, is_admin := none }

/-- Second request with fresh username and phone number. -/
def carolReq : RegisterRequest :=
  { username := some "carol", phone_no := some "102", password := some "pw3",
    full_name := some "Carol", village := none, is_admin := none }

/-- Witness for C4: after registering Alice, a duplicate-username request
fails with 409 and adds no user, and a fresh request succeeds and can then
log in. -/
theorem register_login_contract_witness :
    ((∃ m, register aliceStore 1 aliceDupReq = .error (409, m)) ∧
      usersAfterRegister aliceStore 1 aliceDupReq = aliceStore.users) ∧
    (∃ st2 u2, register aliceStore 1 carolReq = .ok (st2, u2) ∧
      ∃ tok, login st2 2 { username := carolReq.username, password := carolReq.password } =
        .ok (tok, u2)) :=
  ⟨(register_login_contract { users := [], drivers := [], rides := [] } aliceStore
      0 1 2 aliceReq aliceDupReq aliceUser rfl (by decide)).1 (Or.inl rfl),
   (register_login_contract { users := [], drivers := [], rides := [] } aliceStore
      0 1 2 aliceReq carolReq aliceUser rfl (by decide)).2
      (by decide) (by decide)⟩

/-! ## Keyed in-place updates -/

/-- `find?` after an in-place keyed update: when the update rewrites exactly
the rows matching `p` to `r'` (itself matching `p`) and keeps the rest, the
lookup returns `r'`. -/
theorem find?_map_keyed {α : Type} {l : List α} {p : α → Bool} {r r' : α}
    {f : α → α}
    (hfind : l.find? p = some r)
    (hf_pos : ∀ x, p x = true → f x = r')
    (hf_neg : ∀ x, p x = false → f x = x)
    (hr' : p r' = true) :
    (l.map f).find? p = some r' := by
  rw [List.find?_map]
  have hcong : (p ∘ f) = p := by
    funext x
    by_cases hx : p x = true
    · rw [Function.comp_apply, hf_pos x hx, hr', hx]
    · rw [Function.comp_apply, hf_neg x (by simpa using hx)]
  rw [hcong, hfind]
  simp [hf_pos r (List.find?_some hfind)]

/-! ## C1 -/

/-- C1: `book_ride` fails with 404 (`RideNotFound`) when the id does not
resolve, fails with 400 (`RideNotAvailable`) when the ride's status is not
`'available'`, and otherwise sets the status to `'booked'` and the booking
user to the caller in one keyed update that changes nothing else; booking
the same ride again then fails with the `RideNotAvailable` error. -/
theorem book_ride_contract (st : Store) (rid uid uid2 : Nat) :
    (st.rides.find? (fun x => x.ride_id == rid) = none →
      book_ride st rid uid = .error (404, "Ride not found")) ∧
    (∀ r, st.rides.find? (fun x => x.ride_id == rid) = some r →
      r.ride_status ≠ "available" →
      book_ride st rid uid = .error (400, "Ride is not available for booking")) ∧
    (∀ r, st.rides.find? (fun x => x.ride_id == rid) = some r →
      r.ride_status = "available" →
      ∃ st' r', book_ride st rid uid = .ok (st', r') ∧
        r'.ride_status = "booked" ∧ r'.user_id = some uid ∧
        st'.users = st.users ∧ st'.drivers = st.drivers ∧
        st'.rides.find? (fun x => x.ride_id == rid) = some r' ∧
        (∀ x ∈ st.rides, x.ride_id ≠ rid → x ∈ st'.rides) ∧
        book_ride st' rid uid2 = .error (400, "Ride is not available for booking")) := by
  refine ⟨?_, ?_, ?_⟩
  · intro h
    unfold book_ride
    rw [h]
  · intro r hr hs
    unfold book_ride
    rw [hr]
    dsimp only
    rw [if_pos (by simp [hs])]
  · intro r hr hs
    have hrid : (r.ride_id == rid) = true := by
      simpa using List.find?_some hr
    have hbook : book_ride st rid uid = .ok
        ({ st with rides := st.rides.map (fun x => if x.ride_id == rid then
             { r with ride_status := "booked", user_id := some uid } else x) },
         { r with ride_status := "booked", user_id := some uid }) := by
      unfold book_ride
      rw [hr]
      dsimp only
      rw [if_neg (by simp [hs])]
    have hfind' : (st.rides.map (fun x => if x.ride_id == rid then
          { r with ride_status := "booked", user_id := some uid } else x)).find?
        (fun x => x.ride_id == rid) =
        some { r with ride_status := "booked", user_id := some uid } :=
      find?_map_keyed hr (fun x hx => by rw [if_pos hx]) (fun x hx => by rw [if_neg (by simp [hx])])
        hrid
    refine ⟨_, _, hbook, rfl, rfl, rfl, rfl, hfind', ?_, ?_⟩
    · intro x hx hne
      refine List.mem_map.mpr ⟨x, hx, ?_⟩
      rw [if_neg (by simp [hne])]
    · unfold book_ride
      rw [hfind']
      dsimp only
      rw [if_pos (by simp)]

/-- Concrete ride for the booking witnesses: available, unbooked. -/
def openRide : Ride :=
  { ride_id := 1, driver_id := 1, user_id := none, driver_name := "Suresh",
    vehicle_type := "tractor", vehicle_id := "MH15", date := 10, time := 8,
    start_location := "Nashik", destination := "Trimbak",
    ride_status := "available", cargo_type := none, notes := none, created_at := 0 }

/-- Concrete store holding only `openRide`. -/
def openRideStore : Store := { users := [], drivers := [], rides := [openRide] }

/-- Witness for C1: booking the single available ride of `openRideStore`
succeeds with the expected update, and booking it again fails. -/
theorem book_ride_contract_witness :
    ∃ st' r', book_ride openRideStore 1 7 = .ok (st', r') ∧
      r'.ride_status = "booked" ∧ r'.user_id = some 7 ∧
      st'.users = openRideStore.users ∧ st'.drivers = openRideStore.drivers ∧
      st'.rides.find? (fun x => x.ride_id == 1) = some r' ∧
      (∀ x ∈ openRideStore.rides, x.ride_id ≠ 1 → x ∈ st'.rides) ∧
      book_ride st' 1 9 = .error (400, "Ride is not available for booking") :=
  (book_ride_contract openRideStore 1 7 9).2.2 openRide (by decide) rfl

/-! ## C2 -/

/-- `applyRideUpdate` keeps the ride id. -/
theorem applyRideUpdate_ride_id (uid : Nat) (p : RideUpdate) (r : Ride) :
    (applyRideUpdate uid p r).ride_id = r.ride_id := by
  unfold applyRideUpdate
  cases p.date <;> cases p.time <;> cases p.start_location <;> cases p.destination <;>
    cases p.ride_status <;> cases p.cargo_type <;> cases p.notes <;>
    first
      | rfl
      | (dsimp only; split <;> rfl)

/-- The status written by `applyRideUpdate` is the patch's status when
present, the old one otherwise. -/
theorem applyRideUpdate_status (uid : Nat) (p : RideUpdate) (r : Ride) :
    (applyRideUpdate uid p r).ride_status =
      match p.ride_status with
      | some v => v
      | none => r.ride_status := by
  unfold applyRideUpdate
  cases p.date <;> cases p.time <;> cases p.start_location <;> cases p.destination <;>
    cases p.ride_status <;> cases p.cargo_type <;> cases p.notes <;>
    first
      | rfl
      | (dsimp only; split <;> rfl)

/-- The booking user written by `applyRideUpdate`: stamped to the acting
user exactly when the patch sets `ride_status` to `'booked'`. -/
theorem applyRideUpdate_user_id (uid : Nat) (p : RideUpdate) (r : Ride) :
    (applyRideUpdate uid p r).user_id =
      match p.ride_status with
      | some v => if v == "booked" then some uid else r.user_id
      | none => r.user_id := by
  unfold applyRideUpdate
  cases p.date <;> cases p.time <;> cases p.start_location <;> cases p.destination <;>
    cases p.ride_status <;> cases p.cargo_type <;> cases p.notes <;>
    first
      | rfl
      | (dsimp only; split <;> rfl)

/-- C2: a generic ride update whose patch sets `ride_status` to `'booked'`
succeeds on every existing ride — no availability check — and the updated
ride has status `'booked'` and the acting user as booking user, whatever
the previous status was. -/
theorem update_ride_force_book (st : Store) (rid uid : Nat) (p : RideUpdate) (r : Ride)
    (hfind : st.rides.find? (fun x => x.ride_id == rid) = some r)
    (hp : p.ride_status = some "booked") :
    ∃ st' r', update_ride st rid uid p = .ok (st', r') ∧
      r'.ride_status = "booked" ∧ r'.user_id = some uid ∧
      st'.rides.find? (fun x => x.ride_id == rid) = some r' := by
  have hupd : update_ride st rid uid p = .ok
      ({ st with rides := st.rides.map (fun x => if x.ride_id == rid then
           applyRideUpdate uid p r else x) },
       applyRideUpdate uid p r) := by
    unfold update_ride
    rw [hfind]
  have hrid : (r.ride_id == rid) = true := by
    simpa using List.find?_some hfind
  have hrid' : ((applyRideUpdate uid p r).ride_id == rid) = true := by
    rw [applyRideUpdate_ride_id]; exact hrid
  refine ⟨_, _, hupd, ?_, ?_, ?_⟩
  · rw [applyRideUpdate_status, hp]
  · rw [applyRideUpdate_user_id, hp]
    simp
  · exact find?_map_keyed hfind (fun x hx => by rw [if_pos hx])
      (fun x hx => by rw [if_neg (by simp [hx])]) hrid'

/-- Concrete completed, already-booked ride for the C2 witness. -/
def doneRide : Ride :=
  { ride_id := 2, driver_id := 1, user_id := some 3, driver_name := "Vikram",
    vehicle_type := "truck", vehicle_id := "MH16", date := 4, time := 9,
    start_location := "Igatpuri", destination := "Nashik",
    ride_status := "completed", cargo_type := none, notes := none, created_at := 0 }

/-- Patch setting only `ride_status := 'booked'`. -/
def forceBookPatch : RideUpdate :=
  { date := none, time := none, start_location := none, destination := none,
    ride_status := some "booked", cargo_type := none, notes := none }

/-- Witness for C2: a generic update force-books a ride whose status is
`'completed'`, stamping the acting user. -/
theorem update_ride_force_book_witness :
    ∃ st' r',
      update_ride { users := [], drivers := [], rides := [doneRide] } 2 8 forceBookPatch =
        .ok (st', r') ∧
      r'.ride_status = "booked" ∧ r'.user_id = some 8 ∧
      st'.rides.find? (fun x => x.ride_id == 2) = some r' :=
  update_ride_force_book { users := [], drivers := [], rides := [doneRide] } 2 8
    forceBookPatch doneRide (by decide) rfl

/-! ## C10 -/

/-- `applyDriverUpdate` never touches `driver_id`, `vehicle_id` or
`created_at`. -/
theorem applyDriverUpdate_keeps (p : DriverUpdate) (d : Driver) :
    (applyDriverUpdate p d).driver_id = d.driver_id ∧
    (applyDriverUpdate p d).vehicle_id = d.vehicle_id ∧
    (applyDriverUpdate p d).created_at = d.created_at := by
  unfold applyDriverUpdate
  cases p.driver_name <;> cases p.phone_no <;> cases p.vehicle_name <;>
    cases p.vehicle_type <;> cases p.vehicle_photo <;> cases p.driver_photo <;>
    cases p.is_available <;> exact ⟨rfl, rfl, rfl⟩

/-- C10: an admin driver update can change only the seven updatable columns;
the updated driver keeps its `driver_id`, `vehicle_id` and `created_at`,
every driver's key columns are unchanged across the table, drivers with a
different id survive untouched, and the vehicle-id uniqueness invariant is
preserved. (`driver_id` is the primary key, so the table holds no duplicate
ids.) -/
theorem update_driver_frame (st : Store) (did : Nat) (p : DriverUpdate) (d : Driver)
    (hnodup : (st.drivers.map (fun x => x.driver_id)).Nodup)
    (hfind : st.drivers.find? (fun x => x.driver_id == did) = some d) :
    ∃ st' d', update_driver st did p = .ok (st', d') ∧
      d'.driver_id = d.driver_id ∧ d'.vehicle_id = d.vehicle_id ∧
      d'.created_at = d.created_at ∧
      st'.users = st.users ∧ st'.rides = st.rides ∧
      st'.drivers.map (fun x => x.driver_id) = st.drivers.map (fun x => x.driver_id) ∧
      st'.drivers.map (fun x => x.vehicle_id) = st.drivers.map (fun x => x.vehicle_id) ∧
      st'.drivers.map (fun x => x.created_at) = st.drivers.map (fun x => x.created_at) ∧
      ((st.drivers.map (fun x => x.vehicle_id)).Nodup →
        (st'.drivers.map (fun x => x.vehicle_id)).Nodup) ∧
      (∀ x ∈ st.drivers, x.driver_id ≠ did → x ∈ st'.drivers) := by
  obtain ⟨hid, hvid, hcat⟩ := applyDriverUpdate_keeps p d
  have hmem : d ∈ st.drivers := List.mem_of_find?_eq_some hfind
  have hdid : (d.driver_id == did) = true := by
    simpa using List.find?_some hfind
  have hinj := List.inj_on_of_nodup_map hnodup
  have hupd : update_driver st did p = .ok
      ({ st with drivers := st.drivers.map (fun x => if x.driver_id == did then
           applyDriverUpdate p d else x) },
       applyDriverUpdate p d) := by
    unfold update_driver
    rw [hfind]
  have hkey : ∀ x ∈ st.drivers,
      (if x.driver_id == did then applyDriverUpdate p d else x) = x ∨
      ((x.driver_id == did) = true ∧
        (if x.driver_id == did then applyDriverUpdate p d else x) = applyDriverUpdate p x) := by
    intro x hx
    by_cases hxk : (x.driver_id == did) = true
    · right
      refine ⟨hxk, ?_⟩
      have hxd : x = d := by
        refine hinj hx hmem ?_
        have h1 : x.driver_id = did := by simpa using hxk
        have h2 : d.driver_id = did := by simpa using hdid
        rw [h1, h2]
      rw [if_pos hxk, hxd]
    · left
      rw [if_neg hxk]
  have hproj : ∀ π : Driver → Nat,
      (∀ y : Driver, π (applyDriverUpdate p y) = π y) →
      (st.drivers.map (fun x => if x.driver_id == did then
        applyDriverUpdate p d else x)).map π = st.drivers.map π := by
    intro π hπ
    rw [List.map_map]
    refine List.map_congr_left ?_
    intro x hx
    rcases hkey x hx with h | ⟨-, h⟩
    · rw [Function.comp_apply, h]
    · rw [Function.comp_apply, h, hπ x]
  have hprojS : ∀ π : Driver → String,
      (∀ y : Driver, π (applyDriverUpdate p y) = π y) →
      (st.drivers.map (fun x => if x.driver_id == did then
        applyDriverUpdate p d else x)).map π = st.drivers.map π := by
    intro π hπ
    rw [List.map_map]
    refine List.map_congr_left ?_
    intro x hx
    rcases hkey x hx with h | ⟨-, h⟩
    · rw [Function.comp_apply, h]
    · rw [Function.comp_apply, h, hπ x]
  have hveq := hprojS (fun x => x.vehicle_id) (fun y => (applyDriverUpdate_keeps p y).2.1)
  refine ⟨_, _, hupd, hid, hvid, hcat, rfl, rfl,
    hproj (fun x => x.driver_id) (fun y => (applyDriverUpdate_keeps p y).1),
    hveq,
    hproj (fun x => x.created_at) (fun y => (applyDriverUpdate_keeps p y).2.2),
    ?_, ?_⟩
  · intro hnd
    rw [hveq]
    exact hnd
  · intro x hx hne
    refine List.mem_map.mpr ⟨x, hx, ?_⟩
    rw [if_neg (by simp [hne])]

/-- Concrete driver rows for the driver-table witnesses. -/
def driverOne : Driver :=
  { driver_id := 1, driver_name := "Suresh", phone_no := "200",
    vehicle_name := "John Deere", vehicle_type := "tractor",
    vehicle_id := "MH15-TR", vehicle_photo := "v1.jpg", driver_photo := "d1.jpg",
    is_available := true, created_at := 5 }

/-- Second concrete driver row. -/
def driverTwo : Driver :=
  { driver_id := 2, driver_name := "Vikram", phone_no := "201",
    vehicle_name := "Tata 407", vehicle_type := "mini-truck",
    vehicle_id := "MH15-MT", vehicle_photo := "v2.jpg", driver_photo := "d2.jpg",
    is_available := false, created_at := 6 }

/-- Patch renaming a driver and toggling availability. -/
def renamePatch : DriverUpdate :=
  { driver_name := some "Suresh J", phone_no := none, vehicle_name := none,
    vehicle_type := none, vehicle_photo := none, driver_photo := none,
    is_available := some false }

/-- Store with two drivers and three rides (two owned by driver 1). -/
def twoDriverStore : Store :=
  { users := [bobUser]
    drivers := [driverOne, driverTwo]
    rides :=
      [{ openRide with ride_id := 1, driver_id := 1 },
       { openRide with ride_id := 2, driver_id := 1 },
       { openRide with ride_id := 3, driver_id := 2 }] }

/-- Witness for C10: updating driver 1 of `twoDriverStore` keeps all key
columns and the other driver intact. -/
theorem update_driver_frame_witness :
    ∃ st' d', update_driver twoDriverStore 1 renamePatch = .ok (st', d') ∧
      d'.driver_id = driverOne.driver_id ∧ d'.vehicle_id = driverOne.vehicle_id ∧
      d'.created_at = driverOne.created_at ∧
      st'.users = twoDriverStore.users ∧ st'.rides = twoDriverStore.rides ∧
      st'.drivers.map (fun x => x.driver_id) =
        twoDriverStore.drivers.map (fun x => x.driver_id) ∧
      st'.drivers.map (fun x => x.vehicle_id) =
        twoDriverStore.drivers.map (fun x => x.vehicle_id) ∧
      st'.drivers.map (fun x => x.created_at) =
        twoDriverStore.drivers.map (fun x => x.created_at) ∧
      ((twoDriverStore.drivers.map (fun x => x.vehicle_id)).Nodup →
        (st'.drivers.map (fun x => x.vehicle_id)).Nodup) ∧
      (∀ x ∈ twoDriverStore.drivers, x.driver_id ≠ 1 → x ∈ st'.drivers) :=
  update_driver_frame twoDriverStore 1 renamePatch driverOne (by decide) (by decide)

/-! ## C7 -/

/-- Splitting a list by a Boolean predicate preserves its length. -/
theorem length_filter_not_add {α : Type} (p : α → Bool) (l : List α) :
    (l.filter (fun x => !(p x))).length + (l.filter p).length = l.length := by
  induction l with
  | nil => rfl
  | cons a t ih =>
    by_cases h : p a <;> simp [h] <;> omega

/-- C7: deleting an existing driver removes exactly its row and, by the
cascade, exactly the rides it owns: users are untouched, the surviving
drivers are those with a different id, the surviving rides are those of
other drivers, and the ride count drops by the number of the driver's
rides (zero rides: only the driver row goes). -/
theorem delete_driver_cascade_frame (st : Store) (did : Nat) (d : Driver)
    (hfind : st.drivers.find? (fun x => x.driver_id == did) = some d) :
    ∃ st', delete_driver st did = .ok st' ∧
      st'.users = st.users ∧
      (∀ x : Driver, x ∈ st'.drivers ↔ x ∈ st.drivers ∧ x.driver_id ≠ did) ∧
      (∀ r : Ride, r ∈ st'.rides ↔ r ∈ st.rides ∧ r.driver_id ≠ did) ∧
      st'.rides.length + (st.rides.filter (fun r => r.driver_id == did)).length
        = st.rides.length := by
  have hdel : delete_driver st did = .ok
      { users := st.users
        drivers := st.drivers.filter (fun x => !(x.driver_id == did))
        rides := st.rides.filter (fun r => !(r.driver_id == did)) } := by
    unfold delete_driver
    rw [hfind]
  refine ⟨_, hdel, rfl, ?_, ?_, ?_⟩
  · intro x
    simp
  · intro r
    simp
  · exact length_filter_not_add _ _

/-- Witness for C7: deleting driver 1 of `twoDriverStore` removes its two
rides and leaves driver 2, its ride and the users untouched. -/
theorem delete_driver_cascade_frame_witness :
    ∃ st', delete_driver twoDriverStore 1 = .ok st' ∧
      st'.users = twoDriverStore.users ∧
      (∀ x : Driver, x ∈ st'.drivers ↔ x ∈ twoDriverStore.drivers ∧ x.driver_id ≠ 1) ∧
      (∀ r : Ride, r ∈ st'.rides ↔ r ∈ twoDriverStore.rides ∧ r.driver_id ≠ 1) ∧
      st'.rides.length +
          (twoDriverStore.rides.filter (fun r => r.driver_id == 1)).length
        = twoDriverStore.rides.length :=
  delete_driver_cascade_frame twoDriverStore 1 driverOne (by decide)

/-! ## C6 -/

/-- C6: the ride listing returns exactly the rides satisfying the
conjunction of the supplied filters — as a permutation of the conjunctive
filter of the table — and is sorted by date descending then time
descending, whichever filters were supplied. -/
theorem get_rides_filter_sort (st : Store) (status vehicleType : Option String)
    (dateQ : Option Nat) :
    (get_rides st status vehicleType dateQ).Perm
      (st.rides.filter (matchesRideFilters status vehicleType dateQ)) ∧
    List.Sorted rideGe (get_rides st status vehicleType dateQ) := by
  constructor
  · unfold get_rides
    cases status <;> cases vehicleType <;> cases dateQ <;>
      refine (List.perm_insertionSort _ _).trans (List.Perm.of_eq ?_) <;>
      first
        | (simp only [List.filter_filter]
           refine List.filter_congr ?_
           intro x hx
           simp [matchesRideFilters, Bool.and_comm, Bool.and_assoc, Bool.and_left_comm])
        | (symm
           rw [List.filter_eq_self]
           intro a ha
           simp [matchesRideFilters])
  · unfold get_rides
    cases status <;> cases vehicleType <;> cases dateQ <;>
      exact List.sorted_insertionSort rideGe _

/-! ## C8 -/

/-- C8: the admin dashboard — a pure read of the store — reports the exact
global counts of drivers (total and available) and rides (total and per
status), and its recent-rides list consists of at most ten rides which,
together with some remainder, permute the whole table, are sorted by
creation timestamp descending, and dominate the remainder's timestamps
(the ten most recently created rides). -/
theorem admin_dashboard_spec (st : Store) :
    (admin_dashboard st).stats.total_drivers = st.drivers.length ∧
    (admin_dashboard st).stats.available_drivers =
      (st.drivers.filter (fun d => d.is_available)).length ∧
    (admin_dashboard st).stats.total_rides = st.rides.length ∧
    (admin_dashboard st).stats.available_rides =
      (st.rides.filter (fun r => r.ride_status == "available")).length ∧
    (admin_dashboard st).stats.booked_rides =
      (st.rides.filter (fun r => r.ride_status == "booked")).length ∧
    (admin_dashboard st).stats.completed_rides =
      (st.rides.filter (fun r => r.ride_status == "completed")).length ∧
    (admin_dashboard st).recent_rides.length = min 10 st.rides.length ∧
    List.Sorted recentGe (admin_dashboard st).recent_rides ∧
    ∃ rest : List Ride,
      ((admin_dashboard st).recent_rides ++ rest).Perm st.rides ∧
      ∀ x ∈ (admin_dashboard st).recent_rides, ∀ y ∈ rest,
        y.created_at ≤ x.created_at := by
  unfold admin_dashboard
  dsimp only
  refine ⟨rfl, rfl, rfl, rfl, rfl, rfl, ?_, ?_, ?_⟩
  · rw [List.length_take, (List.perm_insertionSort recentGe st.rides).length_eq]
  · exact List.Pairwise.sublist (List.take_sublist 10 _)
      (List.sorted_insertionSort recentGe st.rides)
  · refine ⟨List.drop 10 (List.insertionSort recentGe st.rides), ?_, ?_⟩
    · rw [List.take_append_drop]
      exact List.perm_insertionSort recentGe st.rides
    · intro x hx y hy
      have hp : List.Pairwise recentGe
          (List.take 10 (List.insertionSort recentGe st.rides) ++
            List.drop 10 (List.insertionSort recentGe st.rides)) := by
        rw [List.take_append_drop]
        exact List.sorted_insertionSort recentGe st.rides
      exact (List.pairwise_append.mp hp).2.2 x hx y hy

/-! ## C3 -/

/-- Status written by `applyRideUpdate` when the patch carries one. -/
theorem applyRideUpdate_status_some {uid : Nat} {p : RideUpdate} {r : Ride} {v : String}
    (h : p.ride_status = some v) :
    (applyRideUpdate uid p r).ride_status = v := by
  rw [applyRideUpdate_status, h]

/-- Status kept by `applyRideUpdate` when the patch carries none. -/
theorem applyRideUpdate_status_none {uid : Nat} {p : RideUpdate} {r : Ride}
    (h : p.ride_status = none) :
    (applyRideUpdate uid p r).ride_status = r.ride_status := by
  rw [applyRideUpdate_status, h]

/-- Booking user stamped by `applyRideUpdate` on a `'booked'` patch. -/
theorem applyRideUpdate_user_id_booked {uid : Nat} {p : RideUpdate} {r : Ride}
    (h : p.ride_status = some "booked") :
    (applyRideUpdate uid p r).user_id = some uid := by
  rw [applyRideUpdate_user_id, h]
  simp

/-- Booking user kept by `applyRideUpdate` on a non-`'booked'` status patch. -/
theorem applyRideUpdate_user_id_not_booked {uid : Nat} {p : RideUpdate} {r : Ride}
    {v : String} (h : p.ride_status = some v) (hv : v ≠ "booked") :
    (applyRideUpdate uid p r).user_id = r.user_id := by
  rw [applyRideUpdate_user_id, h]
  simp [hv]

/-- Booking user kept by `applyRideUpdate` when the patch has no status. -/
theorem applyRideUpdate_user_id_none {uid : Nat} {p : RideUpdate} {r : Ride}
    (h : p.ride_status = none) :
    (applyRideUpdate uid p r).user_id = r.user_id := by
  rw [applyRideUpdate_user_id, h]

/-- A restricted generic update preserves the per-ride invariant. -/
theorem rideInvB_applyRideUpdate (uid : Nat) (p : RideUpdate) (r : Ride)
    (hr : rideInvB r = true)
    (hp : (p.ride_status.isNone || p.ride_status == some "booked" ||
      p.ride_status == some "completed") = true) :
    rideInvB (applyRideUpdate uid p r) = true := by
  cases hps : p.ride_status with
  | none =>
    unfold rideInvB rideStatusOk at hr ⊢
    rw [applyRideUpdate_status_none hps, applyRideUpdate_user_id_none hps]
    exact hr
  | some v =>
    rw [hps] at hp
    simp only [Option.isSome_some, Option.isNone_some, Bool.false_or, Option.some.injEq,
      beq_iff_eq, Bool.or_eq_true, decide_eq_true_eq] at hp
    rcases hp with hv | hv <;> subst hv
    · unfold rideInvB rideStatusOk
      rw [applyRideUpdate_status_some hps, applyRideUpdate_user_id_booked hps]
      simp
    · unfold rideInvB rideStatusOk
      rw [applyRideUpdate_status_some hps,
        applyRideUpdate_user_id_not_booked hps (by decide)]
      simp

/-- Inversion of a successful `create_ride`: one appended ride, with the
requested (or default) status and a null booking user. -/
theorem create_ride_ok_inv {st st' : Store} {now : Nat} {req : CreateRideRequest}
    {rd : Ride} (h : create_ride st now req = .ok (st', rd)) :
    st'.users = st.users ∧ st'.drivers = st.drivers ∧ st'.rides = st.rides ++ [rd] ∧
    rd.ride_status = req.ride_status.getD "available" ∧ rd.user_id = none := by
  unfold create_ride at h
  cases hmf : createRideMissingField req with
  | some f => rw [hmf] at h; exact absurd h (by simp)
  | none =>
    rw [hmf] at h
    cases hfd : st.drivers.find? (fun d => d.driver_id == req.driver_id.getD 0) with
    | none => rw [hfd] at h; exact absurd h (by simp)
    | some driver =>
      rw [hfd] at h
      simp only [Except.ok.injEq, Prod.mk.injEq] at h
      obtain ⟨h1, h2⟩ := h
      subst h1
      subst h2
      simp

/-- Inversion of a successful `book_ride`. -/
theorem book_ride_ok_inv {st st' : Store} {rid uid : Nat} {rd : Ride}
    (h : book_ride st rid uid = .ok (st', rd)) :
    ∃ r0, st.rides.find? (fun x => x.ride_id == rid) = some r0 ∧
      rd = { r0 with ride_status := "booked", user_id := some uid } ∧
      st'.users = st.users ∧ st'.drivers = st.drivers ∧
      st'.rides = st.rides.map (fun x => if x.ride_id == rid then rd else x) := by
  unfold book_ride at h
  cases hfd : st.rides.find? (fun x => x.ride_id == rid) with
  | none => rw [hfd] at h; exact absurd h (by simp)
  | some r0 =>
    rw [hfd] at h
    dsimp only at h
    by_cases hs : (r0.ride_status != "available") = true
    · rw [if_pos hs] at h; exact absurd h (by simp)
    · rw [if_neg hs] at h
      simp only [Except.ok.injEq, Prod.mk.injEq] at h
      obtain ⟨h1, h2⟩ := h
      subst h1
      subst h2
      exact ⟨r0, rfl, rfl, rfl, rfl, rfl⟩

/-- Inversion of a successful `update_ride`. -/
theorem update_ride_ok_inv {st st' : Store} {rid uid : Nat} {p : RideUpdate} {rd : Ride}
    (h : update_ride st rid uid p = .ok (st', rd)) :
    ∃ r0, st.rides.find? (fun x => x.ride_id == rid) = some r0 ∧
      rd = applyRideUpdate uid p r0 ∧
      st'.users = st.users ∧ st'.drivers = st.drivers ∧
      st'.rides = st.rides.map (fun x => if x.ride_id == rid then rd else x) := by
  unfold update_ride at h
  cases hfd : st.rides.find? (fun x => x.ride_id == rid) with
  | none => rw [hfd] at h; exact absurd h (by simp)
  | some r0 =>
    rw [hfd] at h
    simp only [Except.ok.injEq, Prod.mk.injEq] at h
    obtain ⟨h1, h2⟩ := h
    subst h1
    subst h2
    exact ⟨r0, rfl, rfl, rfl, rfl, rfl⟩

/-- One restricted API call preserves the store invariant. -/
theorem storeInvB_step (st : Store) (op : Op)
    (h : storeInvB st = true) (hop : goodOp op = true) :
    storeInvB (step st op) = true := by
  cases op with
  | createRide now req =>
    have hstep : step st (Op.createRide now req) =
        match create_ride st now req with
        | .ok (st', _) => st'
        | .error _ => st := rfl
    rw [hstep]
    cases hc : create_ride st now req with
    | error e => exact h
    | ok res =>
      obtain ⟨res1, res2⟩ := res
      obtain ⟨-, -, hrides, hstat, huid⟩ := create_ride_ok_inv hc
      show storeInvB res1 = true
      unfold storeInvB at h ⊢
      rw [hrides, List.all_append, h]
      simp only [Bool.true_and, List.all_cons, List.all_nil, Bool.and_true]
      unfold rideInvB
      rw [hstat, huid]
      have hop' : rideStatusOk (req.ride_status.getD "available") = true := hop
      rw [hop']
      simp
  | bookRide rid uid =>
    have hstep : step st (Op.bookRide rid uid) =
        match book_ride st rid uid with
        | .ok (st', _) => st'
        | .error _ => st := rfl
    rw [hstep]
    cases hc : book_ride st rid uid with
    | error e => exact h
    | ok res =>
      obtain ⟨res1, res2⟩ := res
      obtain ⟨r0, -, hrd, -, -, hrides⟩ := book_ride_ok_inv hc
      show storeInvB res1 = true
      unfold storeInvB at h ⊢
      rw [hrides]
      rw [List.all_eq_true] at h ⊢
      intro x hx
      obtain ⟨x0, hx0, hfx⟩ := List.mem_map.mp hx
      by_cases hk : (x0.ride_id == rid) = true
      · rw [if_pos hk] at hfx
        subst hfx
        rw [hrd]
        unfold rideInvB rideStatusOk
        simp
      · rw [if_neg hk] at hfx
        subst hfx
        exact h x0 hx0
  | updateRide rid uid p =>
    have hstep : step st (Op.updateRide rid uid p) =
        match update_ride st rid uid p with
        | .ok (st', _) => st'
        | .error _ => st := rfl
    rw [hstep]
    cases hc : update_ride st rid uid p with
    | error e => exact h
    | ok res =>
      obtain ⟨res1, res2⟩ := res
      obtain ⟨r0, hfd, hrd, -, -, hrides⟩ := update_ride_ok_inv hc
      show storeInvB res1 = true
      unfold storeInvB at h ⊢
      rw [hrides]
      rw [List.all_eq_true] at h ⊢
      intro x hx
      obtain ⟨x0, hx0, hfx⟩ := List.mem_map.mp hx
      by_cases hk : (x0.ride_id == rid) = true
      · rw [if_pos hk] at hfx
        subst hfx
        rw [hrd]
        exact rideInvB_applyRideUpdate uid p r0
          (h r0 (List.mem_of_find?_eq_some hfd)) hop
      · rw [if_neg hk] at hfx
        subst hfx
        exact h x0 hx0

/-- C3 (amended): from any state satisfying the invariant, any sequence of
the exposed ride operations in which every creation supplies a status from
{available, booked, completed} (or none) and every generic update's
`ride_status`, when present, is `'booked'` or `'completed'`, leads only to
states satisfying the invariant. -/
theorem ride_invariant_restricted (init : Store) (ops : List Op)
    (h0 : storeInvB init = true) (hops : ∀ op ∈ ops, goodOp op = true) :
    storeInvB (applyOps init ops) = true := by
  induction ops generalizing init with
  | nil => exact h0
  | cons op rest ih =>
    exact ih (step init op) (storeInvB_step init op h0 (hops op (by simp)))
      (fun o ho => hops o (by simp [ho]))

/-- Initial store for the invariant counterexample: one driver, one
available unbooked ride — the invariant holds. -/
def invInit : Store :=
  { users := [], drivers := [driverOne], rides := [openRide] }

/-- Create request carrying the out-of-set status `'pending'`. -/
def pendingReq : CreateRideRequest :=
  { driver_id := some 1, date := some 1, time := some 1,
    start_location := some "a", destination := some "b",
    ride_status := some "pending", cargo_type := none, notes := none }

/-- Patch setting only `ride_status := 'available'`. -/
def availPatch : RideUpdate :=
  { date := none, time := none, start_location := none, destination := none,
    ride_status := some "available", cargo_type := none, notes := none }

/-- Counterexample to C3 as stated: from `invInit`, which satisfies the
invariant, the exposed operations reach violating states — creating a ride
with status `'pending'` breaks the closed status set, and booking ride 1
then generically updating it back to `'available'` leaves a non-null
booking user on an `'available'` ride. -/
theorem ride_invariant_not_preserved :
    storeInvB invInit = true ∧
    storeInvB (applyOps invInit [Op.createRide 0 pendingReq]) = false ∧
    storeInvB (applyOps invInit
      [Op.bookRide 1 7, Op.updateRide 1 7 availPatch]) = false := by
  refine ⟨by decide, by decide, by decide⟩

/-- Witness for the amended C3: a restricted sequence (a plain booking)
keeps the invariant. -/
theorem ride_invariant_restricted_witness :
    storeInvB (applyOps invInit [Op.bookRide 1 7]) = true :=
  ride_invariant_restricted invInit [Op.bookRide 1 7] (by decide) (by decide)

end FarmRide
